import Mathlib

/-!
Verification development for the homework-answer bot (`main.py`).

The program is a thin dispatch layer over a messaging transport and two
LLM inference endpoints.  We embed its pure core shallowly:

* the Grade Registry (`user_grades`, a Python dict from user id to a
  semantic grade label) becomes an association list with overwrite-on-set
  semantics;
* the two inference wrappers (`get_homework_help`,
  `analyze_homework_image`) become functions parameterised by oracles
  describing the outcome of the external call (an exception raised during
  the call is the `failure` outcome, a returned response text is the
  success outcome); each wrapper also returns the list of inference calls
  it issued, so theorems can count outbound calls;
* the four message handlers become functions from the registry and the
  inbound event data to an `Effects` record (new registry, replies sent,
  inference calls made);
* startup configuration reading (lines 32, 49, 54-56 of `main.py`)
  becomes `startup`, an `Except` over the three environment variables.

Python truthiness matters in two places and is modelled explicitly:
`if answer:` and `if analysis:` treat the empty string like absence, and
`if not TELEGRAM_BOT_TOKEN:` treats the empty string like a missing
variable.
-/

namespace HomeworkBot

abbrev UserId := Nat

/-- Outcome of one `chat_session.send_message(prompt)` call followed by the
`response.text` access: either an exception was raised somewhere in the
`try` block (`failure`), or a response text string was obtained. -/
inductive ChatOutcome where
  | failure
  | success (text : String)
deriving DecidableEq

/-- Outcome of one `model.generate_content([prompt, image])` call followed
by the `response.text` access: either an exception was raised (`raised`),
or a response text was obtained (`text`; the empty string models a falsy
`response.text`, covering both `""` and `None`). -/
inductive VisionOutcome where
  | raised
  | text (t : String)
deriving DecidableEq

/-- `GRADE_LEVELS` dict of `main.py` (lines 66-70), as a partial lookup:
`none` models a `KeyError` on subscripting. -/
def GRADE_LEVELS : String → Option String := fun token =>
  if token = "1-5" then some "elementary"
  else if token = "6-8" then some "middle"
  else if token = "9-12" then some "high"
  else none

/-- The three grade tokens offered by the inline keyboard. -/
def gradeTokens : List String := ["1-5", "6-8", "9-12"]

/-- The callback data carried by the three buttons built in `start` and
`change_grade` (lines 122-124 and 138-140). -/
def keyboardCallbackData : List String := ["grade_1-5", "grade_6-8", "grade_9-12"]

/-- The `user_grades` dict (line 72): user id to stored semantic label. -/
abbrev Registry := List (UserId × String)

/-- Dict membership / subscript read: `user_grades[user_id]` when present,
`none` when `user_id not in user_grades`. -/
def lookupGrade : Registry → UserId → Option String
  | [], _ => none
  | (v, g) :: rest, u => if v = u then some g else lookupGrade rest u

/-- Dict assignment `user_grades[user_id] = label`: overwrites the entry
for an existing key, otherwise appends a fresh entry. -/
def setGrade : Registry → UserId → String → Registry
  | [], u, g => [(u, g)]
  | (v, g0) :: rest, u, g =>
      if v = u then (v, g) :: rest else (v, g0) :: setGrade rest u g

/-- The configure-first reply (lines 167-169 and 186-188). -/
def configureFirstMsg : String :=
  "Please set your child\x27s grade level first using /start"

/-- The fixed text-question apology (lines 179-181). -/
def textApology : String :=
  "Sorry, I couldn\x27t process that question. Please try again."

/-- The fixed image apology (lines 203-205). -/
def imageApology : String :=
  "Sorry, I couldn\x27t read that image. Please try a clearer photo."

/-- The fixed photo-processing apology of the `except` branch (lines 208-210). -/
def photoErrorApology : String :=
  "Sorry, there was an error processing your photo. Please try again."

/-- The immediate acknowledgment of `handle_photo` (line 192). -/
def analyzingMsg : String := "Analyzing homework..."

/-- The confirmation text of `handle_grade_selection` (lines 158-162). -/
def confirmationMsg (grade_range : String) : String :=
  "Grade level set to: " ++ grade_range ++
  "\n\nYou can now send homework questions or photos to get direct answers.\nUse /change_grade to change the grade level."

/-- The prompt built by `get_homework_help` (lines 79-83). -/
def homeworkPrompt (question grade_level : String) : String :=
  "You are helping with " ++ grade_level ++ " school homework. Question: " ++
  question ++
  "\n\nProvide ONLY the direct answer. No explanations unless specifically asked.\nFormat the answer neatly and clearly."

/-- The prompt built by `analyze_homework_image` (lines 102-107); the
triple-quoted f-string keeps the 8-space indentation of its continuation
lines. -/
def imagePrompt (grade_level : String) : String :=
  "You are helping with " ++ grade_level ++ " school homework.\n        Look at the image, solve any problems shown, and provide the answers.\n        If there are multiple questions, number your answers.\n        Provide ONLY the solution/answer without explanations unless specifically asked.\n        If you see a math problem, show the final answer.\n        If you see a question, provide the direct answer."

/-- Python `str.strip()`: remove leading and trailing whitespace. -/
def pyStrip (s : String) : String :=
  String.mk (((s.data.dropWhile Char.isWhitespace).reverse.dropWhile Char.isWhitespace).reverse)

/-- Python `data.replace("grade_", "")` (line 154): remove every
non-overlapping occurrence of `"grade_"`, left to right. -/
def removeGradeAux : List Char → List Char
  | 'g' :: 'r' :: 'a' :: 'd' :: 'e' :: '_' :: rest => removeGradeAux rest
  | c :: rest => c :: removeGradeAux rest
  | [] => []

/-- `query.data.replace("grade_", "")` on a string. -/
def gradeToken (data : String) : String := String.mk (removeGradeAux data.data)

/-- The character list of the pattern `"grade_"`. -/
def gradePat : List Char := ['g', 'r', 'a', 'd', 'e', '_']

/-- The dispatch condition of `CallbackQueryHandler(..., pattern="^grade_")`
(line 220): callback data matching the anchored regex, i.e. starting with
`"grade_"`. -/
def matchesGradePattern (data : String) : Bool := gradePat.isPrefixOf data.data

/-- `get_homework_help(question, grade_level)` (lines 74-90).  The first
component is the returned value: `response.text.strip()` on success,
`None` when the call raised.  The second component records the single
chat-inference call issued (the prompt sent), which happens regardless of
the outcome. -/
def get_homework_help (question grade_level : String)
    (chat : String → ChatOutcome) : Option String × List String :=
  (match chat (homeworkPrompt question grade_level) with
   | .failure => none
   | .success t => some (pyStrip t),
   [homeworkPrompt question grade_level])

/-- `analyze_homework_image(image_bytes, grade_level)` (lines 92-114).
`decodeOk` models whether `Image.open` succeeds on the bytes; a decode
failure raises inside the `try`, so no vision call is made and `None` is
returned.  On a vision call, the code returns
`response.text.strip() if response.text else None`.  The second component
records the vision-inference calls issued (prompt and image bytes). -/
def analyze_homework_image (imageBytes : List Nat) (grade_level : String)
    (decodeOk : List Nat → Bool)
    (vision : String → List Nat → VisionOutcome) :
    Option String × List (String × List Nat) :=
  if decodeOk imageBytes then
    (match vision (imagePrompt grade_level) imageBytes with
     | .raised => none
     | .text t => if t = "" then none else some (pyStrip t),
     [(imagePrompt grade_level, imageBytes)])
  else (none, [])

/-- The observable effects of handling one inbound event: the registry
after the handler, the texts sent back to the user in order, and the
inference calls made. -/
structure Effects where
  registry : Registry
  replies : List String
  chatCalls : List String
  visionCalls : List (String × List Nat)
deriving DecidableEq

/-- `handle_text_question` (lines 164-181).  `if answer:` takes the
apology branch both when the wrapper returned `None` and when it returned
the empty string. -/
def handle_text_question (reg : Registry) (u : UserId) (text : String)
    (chat : String → ChatOutcome) : Effects :=
  match lookupGrade reg u with
  | none => ⟨reg, [configureFirstMsg], [], []⟩
  | some grade_level =>
    match get_homework_help text grade_level chat with
    | (some answer, calls) =>
        if answer = "" then ⟨reg, [textApology], calls, []⟩
        else ⟨reg, [answer], calls, []⟩
    | (none, calls) => ⟨reg, [textApology], calls, []⟩

/-- `handle_photo` (lines 183-210).  The whole body after the grade check
sits in one `try`: the acknowledgment is sent first, then
`update.message.photo[-1]` takes the last (highest-resolution) photo entry
(`none` models an empty photo list, raising `IndexError`), then the bytes
are downloaded (`download` returns `none` when `get_file` or the download
raises); any of those exceptions lands in the `except` branch after the
acknowledgment was already sent.  `if analysis:` treats the empty string
like `None`. -/
def handle_photo (reg : Registry) (u : UserId) (photos : List String)
    (download : String → Option (List Nat)) (decodeOk : List Nat → Bool)
    (vision : String → List Nat → VisionOutcome) : Effects :=
  match lookupGrade reg u with
  | none => ⟨reg, [configureFirstMsg], [], []⟩
  | some grade_level =>
    match photos.getLast? with
    | none => ⟨reg, [analyzingMsg, photoErrorApology], [], []⟩
    | some fileId =>
      match download fileId with
      | none => ⟨reg, [analyzingMsg, photoErrorApology], [], []⟩
      | some bytes =>
        match analyze_homework_image bytes grade_level decodeOk vision with
        | (some analysis, calls) =>
            if analysis = "" then ⟨reg, [analyzingMsg, imageApology], [], calls⟩
            else ⟨reg, [analyzingMsg, analysis], [], calls⟩
        | (none, calls) => ⟨reg, [analyzingMsg, imageApology], [], calls⟩

/-- `handle_grade_selection` (lines 150-162).  The token is
`query.data.replace("grade_", "")`; `GRADE_LEVELS[grade_range]` raises
`KeyError` for a token outside the dict (`none`: the handler aborts with
an unhandled exception, before the assignment and before the confirmation
is sent).  On success the registry is updated and the confirmation text is
returned. -/
def handle_grade_selection (reg : Registry) (u : UserId) (data : String) :
    Option (Registry × String) :=
  match GRADE_LEVELS (gradeToken data) with
  | none => none
  | some label => some (setGrade reg u label, confirmationMsg (gradeToken data))

/-- The grade-selection prompt of `start` (lines 129-133).  The source
file literally holds the four mojibake characters U+00F0 U+0178 U+2018
U+2039 (a wave emoji whose UTF-8 bytes were re-decoded as another
encoding), reproduced here verbatim. -/
def welcomeMsg : String :=
  "ðŸ‘‹ Welcome to the Homework Answer Bot!\n\nPlease select your child\x27s grade level:"

/-- The grade-selection prompt of `change_grade` (lines 145-148). -/
def changeGradeMsg : String := "Select new grade level:"

/-- `start` (lines 119-133): sends the keyboard prompt, touches nothing else. -/
def start_handler (reg : Registry) : Effects := ⟨reg, [welcomeMsg], [], []⟩

/-- `change_grade` (lines 135-148): sends the keyboard prompt, touches
nothing else. -/
def change_grade_handler (reg : Registry) : Effects := ⟨reg, [changeGradeMsg], [], []⟩

/-- One inbound event from the messaging transport, carrying the oracles
describing how the external collaborators would behave during its
handling.  `textMsg` stands for a non-command text message (the handler is
registered with `filters.TEXT & ~filters.COMMAND`). -/
inductive Event where
  | startCmd (u : UserId)
  | changeGradeCmd (u : UserId)
  | callback (u : UserId) (data : String)
  | textMsg (u : UserId) (text : String) (chat : String → ChatOutcome)
  | photoMsg (u : UserId) (photos : List String)
      (download : String → Option (List Nat)) (decodeOk : List Nat → Bool)
      (vision : String → List Nat → VisionOutcome)

/-- Routing of `main` (lines 215-222): commands go to their handlers,
callback queries reach `handle_grade_selection` only when the data matches
`^grade_`, photos and non-command texts go to their handlers.  A callback
whose grade lookup raises `KeyError` leaves the registry unchanged and
sends no message; an unmatched callback is not dispatched at all. -/
def dispatch (reg : Registry) (e : Event) : Effects :=
  match e with
  | .startCmd _ => start_handler reg
  | .changeGradeCmd _ => change_grade_handler reg
  | .callback u data =>
      if matchesGradePattern data then
        match handle_grade_selection reg u data with
        | some (reg2, conf) => ⟨reg2, [conf], [], []⟩
        | none => ⟨reg, [], [], []⟩
      else ⟨reg, [], [], []⟩
  | .textMsg u t chat => handle_text_question reg u t chat
  | .photoMsg u ps dl dec vis => handle_photo reg u ps dl dec vis

/-- Registry states reachable from the empty initial `user_grades` dict by
handling any sequence of inbound events. -/
inductive Reachable : Registry → Prop where
  | init : Reachable []
  | step (r : Registry) (e : Event) : Reachable r → Reachable (dispatch r e).registry

/-- Every stored grade value is one of the three semantic labels. -/
def RegistryValid (reg : Registry) : Prop :=
  ∀ p ∈ reg, p.2 = "elementary" ∨ p.2 = "middle" ∨ p.2 = "high"

/-- The environment variables read at startup (`os.environ` /
`os.getenv`); `none` is an unset variable. -/
structure EnvVars where
  gemini : Option String
  groq : Option String
  botToken : Option String
deriving DecidableEq

/-- How startup can abort: `KeyError` from `os.environ["GEMINI_API_KEY"]`
(line 32) or the explicit `ValueError` for a missing/empty bot token
(lines 55-56). -/
inductive StartupError where
  | missingGeminiKey
  | missingBotToken
deriving DecidableEq

/-- The configuration a successful startup ends with.  `GROQ_API_KEY` is
read with `.get` and kept unvalidated (line 49); it is never used
afterwards. -/
structure Config where
  geminiKey : String
  groqKey : Option String
  botToken : String
deriving DecidableEq

/-- Startup configuration reading, in source order: line 32 subscripts
`os.environ["GEMINI_API_KEY"]` (raising `KeyError` when unset), line 49
reads `GROQ_API_KEY` with `.get` (no validation), lines 54-56 read the bot
token with `os.getenv` and raise `ValueError` when it is unset or empty
(`if not TELEGRAM_BOT_TOKEN`). -/
def startup (env : EnvVars) : Except StartupError Config :=
  match env.gemini with
  | none => .error .missingGeminiKey
  | some gk =>
    match env.botToken with
    | none => .error .missingBotToken
    | some t =>
        if t = "" then .error .missingBotToken else .ok ⟨gk, env.groq, t⟩

/-! ## Helper lemmas -/

lemma lookupGrade_setGrade_self (reg : Registry) (u : UserId) (l : String) :
    lookupGrade (setGrade reg u l) u = some l := by
  induction reg with
  | nil => simp [setGrade, lookupGrade]
  | cons hd tl ih =>
    obtain ⟨v, g0⟩ := hd
    by_cases h : v = u
    · simp [setGrade, lookupGrade, h]
    · simp [setGrade, lookupGrade, h, ih]

lemma setGrade_idem (reg : Registry) (u : UserId) (l : String) :
    setGrade (setGrade reg u l) u l = setGrade reg u l := by
  induction reg with
  | nil => simp [setGrade]
  | cons hd tl ih =>
    obtain ⟨v, g0⟩ := hd
    by_cases h : v = u
    · simp [setGrade, h]
    · simp [setGrade, h, ih]

lemma setGrade_length_overwrite (reg : Registry) (u : UserId) (l l2 : String) :
    (setGrade (setGrade reg u l) u l2).length = (setGrade reg u l).length := by
  induction reg with
  | nil => simp [setGrade]
  | cons hd tl ih =>
    obtain ⟨v, g0⟩ := hd
    by_cases h : v = u
    · simp [setGrade, h]
    · simp [setGrade, h, ih]

lemma GRADE_LEVELS_valid (token label : String)
    (h : GRADE_LEVELS token = some label) :
    label = "elementary" ∨ label = "middle" ∨ label = "high" := by
  unfold GRADE_LEVELS at h
  split_ifs at h <;> simp_all

lemma setGrade_valid (u : UserId) (l : String)
    (hl : l = "elementary" ∨ l = "middle" ∨ l = "high") :
    ∀ reg : Registry, RegistryValid reg → RegistryValid (setGrade reg u l) := by
  intro reg
  induction reg with
  | nil =>
    intro _ p hp
    rw [show setGrade [] u l = [(u, l)] from rfl, List.mem_singleton] at hp
    subst hp
    exact hl
  | cons hd tl ih =>
    obtain ⟨v, g0⟩ := hd
    intro hreg p hp
    rw [show setGrade ((v, g0) :: tl) u l
        = if v = u then (v, l) :: tl else (v, g0) :: setGrade tl u l from rfl] at hp
    by_cases h : v = u
    · rw [if_pos h, List.mem_cons] at hp
      rcases hp with hp | hp
      · subst hp; exact hl
      · exact hreg p (List.mem_cons_of_mem _ hp)
    · rw [if_neg h, List.mem_cons] at hp
      rcases hp with hp | hp
      · subst hp; exact hreg (v, g0) (List.mem_cons_self _ _)
      · exact ih (fun q hq => hreg q (List.mem_cons_of_mem _ hq)) p hp

lemma handle_text_question_registry (reg : Registry) (u : UserId)
    (t : String) (chat : String → ChatOutcome) :
    (handle_text_question reg u t chat).registry = reg := by
  unfold handle_text_question
  split
  · rfl
  · split
    · split <;> rfl
    · rfl

lemma handle_photo_registry (reg : Registry) (u : UserId) (ps : List String)
    (dl : String → Option (List Nat)) (dec : List Nat → Bool)
    (vis : String → List Nat → VisionOutcome) :
    (handle_photo reg u ps dl dec vis).registry = reg := by
  unfold handle_photo
  split
  · rfl
  · split
    · rfl
    · split
      · rfl
      · split
        · split <;> rfl
        · rfl

lemma handle_grade_selection_spec (reg : Registry) (u : UserId)
    (data : String) (reg2 : Registry) (conf : String)
    (h : handle_grade_selection reg u data = some (reg2, conf)) :
    ∃ label, GRADE_LEVELS (gradeToken data) = some label ∧
      reg2 = setGrade reg u label ∧
      conf = confirmationMsg (gradeToken data) := by
  unfold handle_grade_selection at h
  cases hL : GRADE_LEVELS (gradeToken data) with
  | none => rw [hL] at h; simp at h
  | some label =>
    rw [hL] at h
    simp only [Option.some.injEq, Prod.mk.injEq] at h
    exact ⟨label, rfl, h.1.symm, h.2.symm⟩

lemma dispatch_registry_valid (reg : Registry) (e : Event)
    (h : RegistryValid reg) : RegistryValid (dispatch reg e).registry := by
  cases e with
  | startCmd u => exact h
  | changeGradeCmd u => exact h
  | callback u data =>
    simp only [dispatch]
    by_cases hm : matchesGradePattern data = true
    · rw [if_pos hm]
      cases hG : handle_grade_selection reg u data with
      | none => exact h
      | some res =>
        obtain ⟨reg2, conf⟩ := res
        obtain ⟨label, hL, hreg2, -⟩ :=
          handle_grade_selection_spec reg u data reg2 conf hG
        subst hreg2
        exact setGrade_valid u label (GRADE_LEVELS_valid _ _ hL) reg h
    · rw [if_neg hm]
      exact h
  | textMsg u t chat =>
    simp only [dispatch]
    rw [handle_text_question_registry]
    exact h
  | photoMsg u ps dl dec vis =>
    simp only [dispatch]
    rw [handle_photo_registry]
    exact h

lemma handle_text_question_configured (reg : Registry) (u : UserId)
    (q g : String) (chat : String → ChatOutcome)
    (hg : lookupGrade reg u = some g) :
    handle_text_question reg u q chat =
      match chat (homeworkPrompt q g) with
      | .failure => ⟨reg, [textApology], [homeworkPrompt q g], []⟩
      | .success t =>
          if pyStrip t = "" then ⟨reg, [textApology], [homeworkPrompt q g], []⟩
          else ⟨reg, [pyStrip t], [homeworkPrompt q g], []⟩ := by
  unfold handle_text_question get_homework_help
  rw [hg]
  simp only []
  cases chat (homeworkPrompt q g) with
  | failure => rfl
  | success t => rfl

lemma handle_photo_configured (reg : Registry) (u : UserId)
    (photos : List String) (fileId : String) (bytes : List Nat) (g : String)
    (dl : String → Option (List Nat)) (dec : List Nat → Bool)
    (vis : String → List Nat → VisionOutcome)
    (hg : lookupGrade reg u = some g)
    (hlast : photos.getLast? = some fileId)
    (hdl : dl fileId = some bytes) :
    handle_photo reg u photos dl dec vis =
      match analyze_homework_image bytes g dec vis with
      | (some analysis, calls) =>
          if analysis = "" then ⟨reg, [analyzingMsg, imageApology], [], calls⟩
          else ⟨reg, [analyzingMsg, analysis], [], calls⟩
      | (none, calls) => ⟨reg, [analyzingMsg, imageApology], [], calls⟩ := by
  unfold handle_photo
  rw [hg]
  simp only []
  rw [hlast]
  simp only []
  rw [hdl]

lemma analyze_homework_image_eval (bytes : List Nat) (g : String)
    (dec : List Nat → Bool) (vis : String → List Nat → VisionOutcome)
    (hdec : dec bytes = true) :
    analyze_homework_image bytes g dec vis =
      (match vis (imagePrompt g) bytes with
       | .raised => none
       | .text t => if t = "" then none else some (pyStrip t),
       [(imagePrompt g, bytes)]) := by
  unfold analyze_homework_image
  rw [hdec]
  simp

lemma analyze_homework_image_decode_failure (bytes : List Nat) (g : String)
    (dec : List Nat → Bool) (vis : String → List Nat → VisionOutcome)
    (hdec : dec bytes = false) :
    analyze_homework_image bytes g dec vis = (none, []) := by
  unfold analyze_homework_image
  rw [hdec]
  simp

lemma pyStrip_of_whitespace (t : String)
    (h : ∀ c ∈ t.data, c.isWhitespace) : pyStrip t = "" := by
  unfold pyStrip
  have h1 : t.data.dropWhile Char.isWhitespace = [] :=
    List.dropWhile_eq_nil_iff.mpr h
  rw [h1]
  rfl

/-! ## Claim theorems -/

/-- Claim C1: for every user with no entry in the Grade Registry, handling
a text message or a photo message sends exactly the fixed configure-first
reply, makes no chat- or vision-inference call, and leaves the registry
unchanged. -/
theorem C1_unconfigured_fixed_reply (reg : Registry) (u : UserId)
    (msg : String) (chat : String → ChatOutcome) (photos : List String)
    (download : String → Option (List Nat)) (decodeOk : List Nat → Bool)
    (vision : String → List Nat → VisionOutcome)
    (h : lookupGrade reg u = none) :
    handle_text_question reg u msg chat
      = ⟨reg, [configureFirstMsg], [], []⟩ ∧
    handle_photo reg u photos download decodeOk vision
      = ⟨reg, [configureFirstMsg], [], []⟩ := by
  constructor
  · unfold handle_text_question
    rw [h]
  · unfold handle_photo
    rw [h]

/-- Witness for C1 at a concrete unconfigured user. -/
theorem C1_witness :
    lookupGrade [] 1 = none ∧
    handle_text_question [] 1 "What is 2+2?" (fun _ => ChatOutcome.failure)
      = ⟨[], [configureFirstMsg], [], []⟩ ∧
    handle_photo [] 1 ["file1"] (fun _ => none) (fun _ => true)
      (fun _ _ => VisionOutcome.raised)
      = ⟨[], [configureFirstMsg], [], []⟩ := by
  refine ⟨rfl, ?_, ?_⟩
  · exact (C1_unconfigured_fixed_reply [] 1 "What is 2+2?"
      (fun _ => ChatOutcome.failure) ["file1"] (fun _ => none) (fun _ => true)
      (fun _ _ => VisionOutcome.raised) rfl).1
  · exact (C1_unconfigured_fixed_reply [] 1 "What is 2+2?"
      (fun _ => ChatOutcome.failure) ["file1"] (fun _ => none) (fun _ => true)
      (fun _ _ => VisionOutcome.raised) rfl).2

/-- Claim C3: each of the three grade tokens stores exactly the
corresponding semantic label, overwriting rather than accumulating (the
rewritten registry keeps its length), and selecting the same token twice
in a row leaves the stored grade unchanged and returns the same
confirmation message both times. -/
theorem C3_grade_selection_idempotent (reg : Registry) (u : UserId)
    (token : String) (h : token ∈ gradeTokens) :
    ∃ label, GRADE_LEVELS token = some label ∧
      handle_grade_selection reg u ("grade_" ++ token)
        = some (setGrade reg u label, confirmationMsg token) ∧
      lookupGrade (setGrade reg u label) u = some label ∧
      handle_grade_selection (setGrade reg u label) u ("grade_" ++ token)
        = some (setGrade reg u label, confirmationMsg token) ∧
      (setGrade (setGrade reg u label) u label).length
        = (setGrade reg u label).length := by
  simp only [gradeTokens, List.mem_cons, List.not_mem_nil, or_false] at h
  rcases h with h | h | h <;> subst h
  · refine ⟨"elementary", rfl, rfl, lookupGrade_setGrade_self reg u _, ?_,
      setGrade_length_overwrite reg u _ _⟩
    have h4 : handle_grade_selection (setGrade reg u "elementary") u
        ("grade_" ++ "1-5")
        = some (setGrade (setGrade reg u "elementary") u "elementary",
            confirmationMsg "1-5") := rfl
    rw [h4, setGrade_idem]
  · refine ⟨"middle", rfl, rfl, lookupGrade_setGrade_self reg u _, ?_,
      setGrade_length_overwrite reg u _ _⟩
    have h4 : handle_grade_selection (setGrade reg u "middle") u
        ("grade_" ++ "6-8")
        = some (setGrade (setGrade reg u "middle") u "middle",
            confirmationMsg "6-8") := rfl
    rw [h4, setGrade_idem]
  · refine ⟨"high", rfl, rfl, lookupGrade_setGrade_self reg u _, ?_,
      setGrade_length_overwrite reg u _ _⟩
    have h4 : handle_grade_selection (setGrade reg u "high") u
        ("grade_" ++ "9-12")
        = some (setGrade (setGrade reg u "high") u "high",
            confirmationMsg "9-12") := rfl
    rw [h4, setGrade_idem]

/-- Witness for C3 at the token "6-8" on an empty registry. -/
theorem C3_witness :
    ("6-8" ∈ gradeTokens) ∧
    (∃ label, GRADE_LEVELS "6-8" = some label ∧
      handle_grade_selection [] 42 ("grade_" ++ "6-8")
        = some (setGrade [] 42 label, confirmationMsg "6-8") ∧
      lookupGrade (setGrade [] 42 label) 42 = some label ∧
      handle_grade_selection (setGrade [] 42 label) 42 ("grade_" ++ "6-8")
        = some (setGrade [] 42 label, confirmationMsg "6-8") ∧
      (setGrade (setGrade [] 42 label) 42 label).length
        = (setGrade [] 42 label).length) :=
  ⟨by decide, C3_grade_selection_idempotent [] 42 "6-8" (by decide)⟩

/-- Claim C4: in every reachable state every stored user grade level is
one of the three semantic labels, and only the grade-selection handler
mutates the user-to-grade mapping: the text, photo, start and change-grade
handlers leave the registry unchanged. -/
theorem C4_registry_invariant :
    (∀ reg, Reachable reg → RegistryValid reg) ∧
    (∀ reg u t chat, (handle_text_question reg u t chat).registry = reg) ∧
    (∀ reg u ps dl dec vis,
      (handle_photo reg u ps dl dec vis).registry = reg) ∧
    (∀ reg : Registry, (start_handler reg).registry = reg ∧
      (change_grade_handler reg).registry = reg) := by
  refine ⟨?_, handle_text_question_registry, handle_photo_registry,
    fun reg => ⟨rfl, rfl⟩⟩
  intro reg h
  induction h with
  | init => intro p hp; cases hp
  | step r e hr ih => exact dispatch_registry_valid r e ih

/-- Witness for C4: the registry reached by one grade-6-8 selection is
valid, and a text message leaves it unchanged. -/
theorem C4_witness :
    RegistryValid [(7, "middle")] ∧
    (handle_text_question [(7, "middle")] 7 "hello"
      (fun _ => ChatOutcome.failure)).registry = [(7, "middle")] := by
  constructor
  · have hstep : Reachable (dispatch [] (Event.callback 7 "grade_6-8")).registry :=
      Reachable.step [] (Event.callback 7 "grade_6-8") Reachable.init
    have heval : (dispatch [] (Event.callback 7 "grade_6-8")).registry
        = [(7, "middle")] := rfl
    exact C4_registry_invariant.1 _ (heval ▸ hstep)
  · exact C4_registry_invariant.2.1 [(7, "middle")] 7 "hello"
      (fun _ => ChatOutcome.failure)

/-- Claim C5 counterexample: with the chat-inference (Gemini) key absent
and the bot token present, startup aborts with the KeyError raised by the
unguarded `os.environ` subscript on line 32 — absence of the
chat-inference key is a fatal startup error, not a runtime call failure. -/
theorem C5_counterexample :
    startup ⟨none, some "groq-key", some "bot-token"⟩
      = Except.error StartupError.missingGeminiKey := rfl

/-- Claim C5 amended: absence of the bot token (unset or empty) is a fatal
startup error and absence of the vision-service (Groq) key is not locally
validated, but absence of the chat-inference (Gemini) key is also a fatal
startup error, raised even before the bot-token check. -/
theorem C5_startup_validation (g t : String) (ht : t ≠ "") :
    (∀ groq gem, startup ⟨some gem, groq, none⟩
        = Except.error StartupError.missingBotToken) ∧
    (∀ groq gem, startup ⟨some gem, groq, some ""⟩
        = Except.error StartupError.missingBotToken) ∧
    (startup ⟨some g, none, some t⟩ = Except.ok ⟨g, none, t⟩) ∧
    (∀ groq bt, startup ⟨none, groq, bt⟩
        = Except.error StartupError.missingGeminiKey) := by
  refine ⟨fun groq gem => rfl, fun groq gem => rfl, ?_, fun groq bt => rfl⟩
  unfold startup
  simp only []
  rw [if_neg ht]

/-- Witness for C5 amended: startup succeeds with the Groq key absent. -/
theorem C5_witness :
    startup ⟨some "gk", none, some "tok"⟩ = Except.ok ⟨"gk", none, "tok"⟩ :=
  (C5_startup_validation "gk" "tok" (by decide)).2.2.1

/-- Claim C2 counterexample: with stored label "middle", the mocked chat
call returns the whitespace-only text "   ", yet the user receives the
fixed apology instead of that (trimmed) text — the claim's "when the call
returns text the user receives exactly that (trimmed) text" fails here. -/
theorem C2_counterexample :
    (fun _ : String => ChatOutcome.success "   ") (homeworkPrompt "q" "middle")
      = ChatOutcome.success "   " ∧
    (handle_text_question [(1, "middle")] 1 "q"
      (fun _ => ChatOutcome.success "   ")).replies = [textApology] ∧
    textApology ≠ pyStrip "   " := by
  refine ⟨rfl, rfl, by decide⟩

/-- Claim C2 amended: for a user with a stored grade label, a text message
makes exactly one chat-inference call whose prompt embeds both the stored
label and the message text, and when the call returns text whose trimmed
form is non-empty the user receives exactly that trimmed text (a
whitespace-only response instead yields the fixed apology). -/
theorem C2_configured_text_flow (reg : Registry) (u : UserId)
    (q g : String) (chat : String → ChatOutcome)
    (hg : lookupGrade reg u = some g) :
    (handle_text_question reg u q chat).chatCalls = [homeworkPrompt q g] ∧
    (∃ pre mid post, homeworkPrompt q g = pre ++ g ++ (mid ++ q ++ post)) ∧
    (∀ t, chat (homeworkPrompt q g) = ChatOutcome.success t →
      pyStrip t ≠ "" →
      (handle_text_question reg u q chat).replies = [pyStrip t]) := by
  have hrw := handle_text_question_configured reg u q g chat hg
  refine ⟨?_, ⟨"You are helping with ", " school homework. Question: ",
    "\n\nProvide ONLY the direct answer. No explanations unless specifically asked.\nFormat the answer neatly and clearly.",
    by simp [homeworkPrompt, String.append_assoc]⟩, ?_⟩
  · rw [hrw]
    cases chat (homeworkPrompt q g) with
    | failure => rfl
    | success t =>
      simp only []
      split
      · rfl
      · rfl
  · intro t hc hne
    rw [hrw, hc]
    simp only []
    rw [if_neg hne]

/-- Witness for C2 amended: the spec scenario — stored label "middle",
question "What is 7×8?", mocked response "56" — yields exactly one chat
call with the embedding prompt and the reply "56". -/
theorem C2_witness :
    (handle_text_question [(5, "middle")] 5 "What is 7×8?"
      (fun _ => ChatOutcome.success "56")).chatCalls
      = [homeworkPrompt "What is 7×8?" "middle"] ∧
    (handle_text_question [(5, "middle")] 5 "What is 7×8?"
      (fun _ => ChatOutcome.success "56")).replies = ["56"] := by
  have h := C2_configured_text_flow [(5, "middle")] 5 "What is 7×8?" "middle"
    (fun _ => ChatOutcome.success "56") rfl
  refine ⟨h.1, ?_⟩
  have h3 := h.2.2 "56" rfl (by decide)
  have e : pyStrip "56" = "56" := rfl
  rw [e] at h3
  exact h3

/-- Claim C6 counterexample: an empty chat response — one of the claim's
enumerated inference failures — is not converted to an absence value at
the point of call: the text wrapper returns the present value `some ""`
(no empty guard on line 87), and only the dispatch layer's own emptiness
test (`if answer:`) turns it into the apology. -/
theorem C6_counterexample :
    (get_homework_help "What is 1+1?" "elementary"
      (fun _ => ChatOutcome.success "")).1 = some "" ∧
    (get_homework_help "What is 1+1?" "elementary"
      (fun _ => ChatOutcome.success "")).1 ≠ none ∧
    (handle_text_question [(2, "elementary")] 2 "What is 1+1?"
      (fun _ => ChatOutcome.success "")).replies = [textApology] := by
  refine ⟨rfl, by decide, rfl⟩

/-- Claim C6 amended: every raised chat-inference call, raised or empty
vision-inference call and image-decode failure is converted to an absence
value at the wrapper where the call is made, so the dispatch layer only
observes an optional answer; an empty chat response, however, is returned
by the text wrapper as the (present) empty string and converted to the
apology only by the dispatch layer's emptiness test.  For a configured
user each of these failures is surfaced as exactly the fixed text apology
(text path) or the fixed image apology (photo path), and the handlers are
total functions, so no failure propagates as a crash. -/
theorem C6_failures_surface_as_apologies (reg : Registry) (u : UserId)
    (q g : String) (chat : String → ChatOutcome)
    (photos : List String) (fileId : String) (bytes : List Nat)
    (dl : String → Option (List Nat)) (dec : List Nat → Bool)
    (vis : String → List Nat → VisionOutcome)
    (hg : lookupGrade reg u = some g)
    (hlast : photos.getLast? = some fileId)
    (hdl : dl fileId = some bytes) :
    (chat (homeworkPrompt q g) = ChatOutcome.failure →
      (get_homework_help q g chat).1 = none ∧
      (handle_text_question reg u q chat).replies = [textApology]) ∧
    (vis (imagePrompt g) bytes = VisionOutcome.raised ∨
        vis (imagePrompt g) bytes = VisionOutcome.text "" ∨
        dec bytes = false →
      (analyze_homework_image bytes g dec vis).1 = none) ∧
    ((analyze_homework_image bytes g dec vis).1 = none →
      (handle_photo reg u photos dl dec vis).replies
        = [analyzingMsg, imageApology]) ∧
    (chat (homeworkPrompt q g) = ChatOutcome.success "" →
      (get_homework_help q g chat).1 = some "" ∧
      (handle_text_question reg u q chat).replies = [textApology]) := by
  refine ⟨?_, ?_, ?_, ?_⟩
  · intro hc
    constructor
    · unfold get_homework_help
      rw [hc]
    · rw [handle_text_question_configured reg u q g chat hg, hc]
  · intro hcase
    rcases hcase with hv | hv | hd
    · by_cases hdec : dec bytes = true
      · rw [analyze_homework_image_eval bytes g dec vis hdec]
        simp only []
        rw [hv]
      · rw [analyze_homework_image_decode_failure bytes g dec vis
          (by simpa using hdec)]
    · by_cases hdec : dec bytes = true
      · rw [analyze_homework_image_eval bytes g dec vis hdec]
        simp only []
        rw [hv]
        rfl
      · rw [analyze_homework_image_decode_failure bytes g dec vis
          (by simpa using hdec)]
    · rw [analyze_homework_image_decode_failure bytes g dec vis hd]
  · intro hana
    rw [handle_photo_configured reg u photos fileId bytes g dl dec vis
      hg hlast hdl]
    cases hp : analyze_homework_image bytes g dec vis with
    | mk fst snd =>
      rw [hp] at hana
      simp only [] at hana
      subst hana
      rfl
  · intro hc
    constructor
    · unfold get_homework_help
      rw [hc]
      rfl
    · rw [handle_text_question_configured reg u q g chat hg, hc]
      rfl

/-- Witness for C6 amended: a concrete failing chat call, a failing vision
call and an empty chat response produce the two fixed apology strings. -/
theorem C6_witness :
    ((handle_text_question [(1, "middle")] 1 "q"
      (fun _ => ChatOutcome.failure)).replies = [textApology] ∧
    (handle_photo [(1, "middle")] 1 ["f"] (fun _ => some [0]) (fun _ => true)
      (fun _ _ => VisionOutcome.raised)).replies
      = [analyzingMsg, imageApology]) ∧
    ((get_homework_help "q" "elementary"
      (fun _ => ChatOutcome.success "")).1 = some "" ∧
    (handle_text_question [(4, "elementary")] 4 "q"
      (fun _ => ChatOutcome.success "")).replies = [textApology]) := by
  constructor
  · have h := C6_failures_surface_as_apologies [(1, "middle")] 1 "q" "middle"
      (fun _ => ChatOutcome.failure) ["f"] "f" [0] (fun _ => some [0])
      (fun _ => true) (fun _ _ => VisionOutcome.raised) rfl rfl rfl
    exact ⟨(h.1 rfl).2, h.2.2.1 rfl⟩
  · have h := C6_failures_surface_as_apologies [(4, "elementary")] 4 "q"
      "elementary" (fun _ => ChatOutcome.success "") ["f"] "f" [0]
      (fun _ => some [0]) (fun _ => true) (fun _ _ => VisionOutcome.raised)
      rfl rfl rfl
    exact h.2.2.2 rfl

/-- Claim C7 counterexample: on an empty response the wrapper returns the
empty string, not an absence value — `response.text.strip()` has no empty
guard (unlike the image wrapper on line 110). -/
theorem C7_counterexample :
    (get_homework_help "q" "middle" (fun _ => ChatOutcome.success "")).1
      ≠ none ∧
    (get_homework_help "q" "middle" (fun _ => ChatOutcome.success "")).1
      = some "" := by
  refine ⟨by decide, rfl⟩

/-- Claim C7 amended: getHomeworkHelp returns the response text with
surrounding whitespace trimmed and signals absence exactly when the
transport/inference call raised; an empty (or whitespace-only) response
yields the empty string rather than absence — the caller treats that empty
string as a failure. -/
theorem C7_trim_and_absence (q g : String) (chat : String → ChatOutcome) :
    (chat (homeworkPrompt q g) = ChatOutcome.failure ↔
      (get_homework_help q g chat).1 = none) ∧
    (∀ t, chat (homeworkPrompt q g) = ChatOutcome.success t →
      (get_homework_help q g chat).1 = some (pyStrip t)) := by
  constructor
  · constructor
    · intro h
      unfold get_homework_help
      rw [h]
    · intro h
      cases hc : chat (homeworkPrompt q g) with
      | failure => rfl
      | success t =>
        unfold get_homework_help at h
        rw [hc] at h
        simp at h
  · intro t h
    unfold get_homework_help
    rw [h]

/-- Witness for C7 amended: a padded response " 42 " is trimmed to "42". -/
theorem C7_witness :
    (get_homework_help "q" "middle"
      (fun _ => ChatOutcome.success " 42 ")).1 = some "42" := by
  have h := (C7_trim_and_absence "q" "middle"
    (fun _ => ChatOutcome.success " 42 ")).2 " 42 " rfl
  have e : pyStrip " 42 " = "42" := rfl
  rw [e] at h
  exact h

/-- Claim C8 counterexample: on a whitespace-only vision response the
Image Answer Service succeeds with the returned (trimmed) text "", but the
user receives the fixed image apology instead of that returned text — the
claim's "replies with the returned text on success" fails here. -/
theorem C8_counterexample :
    (analyze_homework_image [1] "middle" (fun _ => true)
      (fun _ _ => VisionOutcome.text "   ")).1 = some "" ∧
    (handle_photo [(1, "middle")] 1 ["fid"] (fun _ => some [1])
      (fun _ => true) (fun _ _ => VisionOutcome.text "   ")).replies
      = [analyzingMsg, imageApology] ∧
    imageApology ≠ "" := by
  refine ⟨rfl, rfl, by decide⟩

/-- Claim C8 amended: for a configured user a photo message sends the
"Analyzing homework..." acknowledgment first, takes the last
(highest-resolution) element of the photo list, downloads its bytes,
forwards the bytes and stored grade label to the Image Answer Service
(exactly one vision call when the bytes decode), replies with the returned
text when it is non-empty, and replies with a fixed apology on inference
failure, image-read error, empty returned text, or download failure. -/
theorem C8_configured_photo_flow (reg : Registry) (u : UserId)
    (photos : List String) (fileId g : String)
    (dl : String → Option (List Nat)) (dec : List Nat → Bool)
    (vis : String → List Nat → VisionOutcome)
    (hg : lookupGrade reg u = some g)
    (hlast : photos.getLast? = some fileId) :
    ((handle_photo reg u photos dl dec vis).replies.head?
      = some analyzingMsg) ∧
    (dl fileId = none →
      (handle_photo reg u photos dl dec vis).replies
        = [analyzingMsg, photoErrorApology]) ∧
    (∀ b, dl fileId = some b →
      (handle_photo reg u photos dl dec vis).visionCalls
        = (analyze_homework_image b g dec vis).2 ∧
      (dec b = true →
        (handle_photo reg u photos dl dec vis).visionCalls
          = [(imagePrompt g, b)]) ∧
      (∀ a, (analyze_homework_image b g dec vis).1 = some a → a ≠ "" →
        (handle_photo reg u photos dl dec vis).replies
          = [analyzingMsg, a]) ∧
      ((analyze_homework_image b g dec vis).1 = none →
        (handle_photo reg u photos dl dec vis).replies
          = [analyzingMsg, imageApology])) := by
  refine ⟨?_, ?_, ?_⟩
  · unfold handle_photo
    rw [hg]
    simp only []
    rw [hlast]
    simp only []
    cases dl fileId with
    | none => rfl
    | some b =>
      simp only []
      cases analyze_homework_image b g dec vis with
      | mk fst snd =>
        cases fst with
        | none => rfl
        | some a =>
          simp only []
          split
          · rfl
          · rfl
  · intro hdl
    unfold handle_photo
    rw [hg]
    simp only []
    rw [hlast]
    simp only []
    rw [hdl]
  · intro b hdl
    have hrw := handle_photo_configured reg u photos fileId b g dl dec vis
      hg hlast hdl
    refine ⟨?_, ?_, ?_, ?_⟩
    · rw [hrw]
      cases analyze_homework_image b g dec vis with
      | mk fst snd =>
        cases fst with
        | none => rfl
        | some a =>
          simp only []
          split
          · rfl
          · rfl
    · intro hdec
      have h2 : (analyze_homework_image b g dec vis).2 = [(imagePrompt g, b)] := by
        rw [analyze_homework_image_eval b g dec vis hdec]
      rw [hrw]
      cases hp : analyze_homework_image b g dec vis with
      | mk fst snd =>
        rw [hp] at h2
        have h2' : snd = [(imagePrompt g, b)] := h2
        subst h2'
        cases fst with
        | none => rfl
        | some a =>
          simp only []
          split
          · rfl
          · rfl
    · intro a hana hne
      rw [hrw]
      cases hp : analyze_homework_image b g dec vis with
      | mk fst snd =>
        rw [hp] at hana
        simp only [] at hana
        subst hana
        simp only []
        rw [if_neg hne]
    · intro hana
      rw [hrw]
      cases hp : analyze_homework_image b g dec vis with
      | mk fst snd =>
        rw [hp] at hana
        simp only [] at hana
        subst hana
        rfl

/-- Witness for C8 amended: a configured user, a two-entry photo list and
a succeeding pipeline produce the acknowledgment, one vision call on the
last photo's bytes, and the answer. -/
theorem C8_witness :
    (handle_photo [(1, "middle")] 1 ["a", "b"] (fun _ => some [9])
      (fun _ => true) (fun _ _ => VisionOutcome.text "ok")).replies
      = [analyzingMsg, "ok"] ∧
    (handle_photo [(1, "middle")] 1 ["a", "b"] (fun _ => some [9])
      (fun _ => true) (fun _ _ => VisionOutcome.text "ok")).visionCalls
      = [(imagePrompt "middle", [9])] := by
  have h := C8_configured_photo_flow [(1, "middle")] 1 ["a", "b"] "b"
    "middle" (fun _ => some [9]) (fun _ => true)
    (fun _ _ => VisionOutcome.text "ok") rfl rfl
  obtain ⟨-, -, h3⟩ := h
  obtain ⟨-, h32, h33, -⟩ := h3 [9] rfl
  refine ⟨?_, h32 rfl⟩
  have hr := h33 "ok" rfl (by decide)
  exact hr

/-- Claim C9 counterexample: the callback data "grade_x" matches the
dispatch pattern ^grade_, yet its stripped token "x" is outside the closed
token set and the grade-table lookup fails — the invalid-token error
branch (a KeyError) is reachable for pattern-matching data. -/
theorem C9_counterexample :
    matchesGradePattern "grade_x" = true ∧
    gradeToken "grade_x" = "x" ∧
    GRADE_LEVELS "x" = none ∧
    handle_grade_selection [] 1 "grade_x" = none := by
  refine ⟨by decide, rfl, rfl, rfl⟩

/-- Claim C9 amended: matching ^grade_ alone does not put the stripped
token in the closed set (see the counterexample), but for every callback
datum the bot's own keyboards can produce, the stripped token is one of
the three closed tokens and the handler's grade-table lookup succeeds. -/
theorem C9_keyboard_tokens_closed (data : String)
    (h : data ∈ keyboardCallbackData) (reg : Registry) (u : UserId) :
    matchesGradePattern data = true ∧
    gradeToken data ∈ gradeTokens ∧
    ∃ res, handle_grade_selection reg u data = some res := by
  simp only [keyboardCallbackData, List.mem_cons, List.not_mem_nil,
    or_false] at h
  rcases h with h | h | h <;> subst h
  · exact ⟨by decide, by decide,
      ⟨(setGrade reg u "elementary", confirmationMsg "1-5"), rfl⟩⟩
  · exact ⟨by decide, by decide,
      ⟨(setGrade reg u "middle", confirmationMsg "6-8"), rfl⟩⟩
  · exact ⟨by decide, by decide,
      ⟨(setGrade reg u "high", confirmationMsg "9-12"), rfl⟩⟩

/-- Witness for C9 amended at the keyboard datum "grade_9-12". -/
theorem C9_witness :
    ("grade_9-12" ∈ keyboardCallbackData) ∧
    matchesGradePattern "grade_9-12" = true ∧
    gradeToken "grade_9-12" ∈ gradeTokens ∧
    ∃ res, handle_grade_selection [] 3 "grade_9-12" = some res := by
  have h := C9_keyboard_tokens_closed "grade_9-12" (by decide) [] 3
  exact ⟨by decide, h.1, h.2.1, h.2.2⟩

/-- Claim C10: for a configured user the fixed text apology is sent when
getHomeworkHelp returns absence or the empty string, the (trimmed) answer
is sent in every other case, a whitespace-only model response trims to the
empty string and so yields the apology, and in all cases the user receives
exactly one non-empty reply. -/
theorem C10_text_apology_condition (reg : Registry) (u : UserId)
    (q g : String) (chat : String → ChatOutcome)
    (hg : lookupGrade reg u = some g) :
    ((get_homework_help q g chat).1 = none ∨
        (get_homework_help q g chat).1 = some "" →
      (handle_text_question reg u q chat).replies = [textApology]) ∧
    (∀ a, (get_homework_help q g chat).1 = some a → a ≠ "" →
      (handle_text_question reg u q chat).replies = [a]) ∧
    (∀ t, chat (homeworkPrompt q g) = ChatOutcome.success t →
      (∀ c ∈ t.data, c.isWhitespace) →
      (handle_text_question reg u q chat).replies = [textApology]) ∧
    (∃ r, (handle_text_question reg u q chat).replies = [r] ∧ r ≠ "") := by
  have hrw := handle_text_question_configured reg u q g chat hg
  cases hc : chat (homeworkPrompt q g) with
  | failure =>
    have hr : (handle_text_question reg u q chat).replies = [textApology] := by
      rw [hrw, hc]
    have hget : (get_homework_help q g chat).1 = none := by
      unfold get_homework_help
      rw [hc]
    refine ⟨fun _ => hr, ?_, fun _ _ _ => hr, ⟨textApology, hr, by decide⟩⟩
    intro a ha
    rw [hget] at ha
    cases ha
  | success t =>
    have hget : (get_homework_help q g chat).1 = some (pyStrip t) := by
      unfold get_homework_help
      rw [hc]
    by_cases hempty : pyStrip t = ""
    · have hr : (handle_text_question reg u q chat).replies = [textApology] := by
        rw [hrw, hc]
        simp only []
        rw [if_pos hempty]
      refine ⟨fun _ => hr, ?_, fun _ _ _ => hr, ⟨textApology, hr, by decide⟩⟩
      intro a ha hne
      rw [hget] at ha
      have : pyStrip t = a := by injection ha
      exact absurd (this.symm.trans hempty) hne
    · have hr : (handle_text_question reg u q chat).replies = [pyStrip t] := by
        rw [hrw, hc]
        simp only []
        rw [if_neg hempty]
      refine ⟨?_, ?_, ?_, ⟨pyStrip t, hr, hempty⟩⟩
      · intro hcase
        rw [hget] at hcase
        rcases hcase with hx | hx
        · cases hx
        · have : pyStrip t = "" := by injection hx
          exact absurd this hempty
      · intro a ha hne
        rw [hget] at ha
        have : pyStrip t = a := by injection ha
        rw [← this]
        exact hr
      · intro t2 ht hws
        have ht2 : t = t2 := by injection ht
        subst ht2
        exact absurd (pyStrip_of_whitespace t hws) hempty

/-- Witness for C10: a failing chat call for a configured user yields
exactly the fixed text apology. -/
theorem C10_witness :
    (handle_text_question [(1, "middle")] 1 "q"
      (fun _ => ChatOutcome.failure)).replies = [textApology] :=
  (C10_text_apology_condition [(1, "middle")] 1 "q" "middle"
    (fun _ => ChatOutcome.failure) rfl).1 (Or.inl rfl)

end HomeworkBot
